import Mathlib

/-!
Verification of the `ProgramManager` core of the Aleo program-management crate
(`src/rust/src/program/mod.rs`), as a shallow embedding in Lean 4.

The embedding models the external collaborators (consensus store, VM, network
API client, filesystem) as an explicit environment `Env` of outcome functions,
and records the observable resource/IO actions of each operation as a trace of
`Event`s, so that frame properties (no store opened, no network call made) are
statable as facts about the trace.
-/

namespace Aleo

/-- Stand-in for `PrivateKey<N>`: only its presence/identity matters here. -/
abbrev PrivateKey := Nat

/-- Stand-in for `Ciphertext<N>` (the encrypted private key). -/
abbrev Ciphertext := Nat

/-- Stand-in for `std::path::PathBuf`. -/
abbrev PathBuf := String

/-- Stand-in for `Transaction<N>`: opaque to this layer (no local validation). -/
abbrev Transaction := Nat

/-- A program identifier, as passed to the resolvers. -/
abbrev ProgramId := String

/-- Program source text returned by a resolver. -/
abbrev Source := String

/-- Stand-in for an opened `ConsensusStore<N, ConsensusMemory<N>>`. -/
abbrev Store := Nat

/-- Stand-in for a `VM<N, ConsensusMemory<N>>` handle. -/
abbrev Vm := Nat

/-- `NetworkConfig`: how to reach a remote network endpoint. -/
structure NetworkConfig where
  host : String
  networkId : Nat
deriving DecidableEq, Repr

/-- The error taxonomy of the manager layer. The four message-carrying
constructors correspond to the four distinct `bail!`/`anyhow!` messages of
`src/rust/src/program/mod.rs`; the remaining constructors carry a collaborator
error message through unchanged. -/
inductive PMError where
  /-- "Cannot have both private key and private key ciphertext" -/
  | bothSupplied
  /-- "Must have either private key or private key ciphertext" -/
  | neitherSupplied
  /-- "Path specified was not valid" -/
  | pathInvalid
  /-- "No API client found" -/
  | noApiClient
  /-- Error of `ConsensusStore::open`, propagated by `?`. -/
  | storeOpenFailed (msg : String)
  /-- Error of `VM::from`, propagated by `?`. -/
  | vmFromFailed (msg : String)
  /-- Error of a resolver constructor, propagated by `?`. -/
  | resolverNewFailed (msg : String)
  /-- Error of `AleoAPIClient::transaction_broadcast`, propagated by `?`. -/
  | broadcastFailed (msg : String)
deriving DecidableEq, Repr

/-- Errors a resolver can produce when resolving a program. -/
inductive ResolverError where
  | notFound
  | ioError (msg : String)
deriving DecidableEq, Repr

/-- What the filesystem holds at a given program name inside a directory:
nothing, a readable program file, or a file whose read fails (corrupted). -/
inductive FsFile where
  | absent
  | file (contents : Source)
  | corrupted (msg : String)
deriving DecidableEq, Repr

/-- `FileSystemResolver<N>`: resolves programs from a local directory;
it captures the directory path at construction. -/
structure FileSystemResolver where
  importsDirectory : PathBuf
deriving DecidableEq, Repr

/-- `AleoNetworkResolver<N>`: resolves programs through the network API client;
it captures the network config at construction. -/
structure AleoNetworkResolver where
  networkConfig : NetworkConfig
deriving DecidableEq, Repr

/-- `HybridResolver<N>`: both sub-resolvers, local tried first. -/
structure HybridResolver where
  fileSystemResolver : FileSystemResolver
  networkResolver : AleoNetworkResolver
deriving DecidableEq, Repr

/-- Observable resource and IO actions, recorded as a trace. -/
inductive Event where
  /-- A call to `ConsensusStore::open(None)`. -/
  | storeOpenCall
  /-- A call to `VM::from(store)`. -/
  | vmFromCall
  /-- A call to a resolver constructor over a directory path. -/
  | resolverNewCall (dir : PathBuf)
  /-- Construction of an `AleoAPIClient` from a config. -/
  | apiClientFrom (config : NetworkConfig)
  /-- A broadcast submission of a transaction over the network. -/
  | transactionBroadcastCall (tx : Transaction)
  /-- A local filesystem read of a program. -/
  | localRead (id : ProgramId)
  /-- A network fetch of a program. -/
  | networkFetch (id : ProgramId)
deriving DecidableEq, Repr

/-- The external collaborators, as an environment of outcome functions:
the outcome of `ConsensusStore::open(None)`, of `VM::from`, the usability
check of a directory path, the broadcast outcome of the API client built from
a given config, the filesystem contents, and the network program fetch. -/
structure Env where
  storeOpen : Except String Store
  vmFrom : Store → Except String Vm
  pathUsable : PathBuf → Bool
  broadcast : NetworkConfig → Transaction → Except String Unit
  fs : PathBuf → ProgramId → FsFile
  netFetch : NetworkConfig → ProgramId → Except ResolverError Source

/-- `ProgramManager<N, R>`: VM handle, the two optional identity forms, the
optional network config, and the resolver instance, exactly the five fields of
the Rust struct. -/
structure ProgramManager (R : Type) where
  vm : Vm
  private_key : Option PrivateKey
  private_key_ciphertext : Option Ciphertext
  network_config : Option NetworkConfig
  resolver : R
deriving DecidableEq, Repr

/-- Modelled from the spec: `FileSystemResolver::new` (the resolvers module is
not under `src/`; only its callers are) validates at construction time that the
supplied directory path is usable and fails fast otherwise. -/
def FileSystemResolver.new (env : Env) (dir : PathBuf) :
    Except String FileSystemResolver :=
  if env.pathUsable dir then .ok ⟨dir⟩ else .error "Path is not usable"

/-- Modelled from the spec and the call site at line 94 of
`src/rust/src/program/mod.rs`: `AleoNetworkResolver::new` is infallible (the
factory applies no error operator to it) and captures the config. -/
def AleoNetworkResolver.new (config : NetworkConfig) : AleoNetworkResolver :=
  ⟨config⟩

/-- Modelled from the spec: `HybridResolver::new` (not under `src/`) constructs
both sub-resolvers, and both must construct successfully or the hybrid fails to
construct. -/
def HybridResolver.new (env : Env) (config : NetworkConfig) (dir : PathBuf) :
    Except String HybridResolver :=
  match FileSystemResolver.new env dir with
  | .error m => .error m
  | .ok fsr => .ok ⟨fsr, AleoNetworkResolver.new config⟩

/-- `ProgramManager::new` (lines 62-76): reject both identity forms, then
reject neither, then open the consensus store, instantiate the VM from it, and
assemble the manager. Returns the result together with the trace of resource
actions performed. -/
def ProgramManager.new {R : Type} (env : Env) (private_key : Option PrivateKey)
    (private_key_ciphertext : Option Ciphertext)
    (network_config : Option NetworkConfig) (resolver : R) :
    Except PMError (ProgramManager R) × List Event :=
  if private_key.isSome && private_key_ciphertext.isSome then
    (.error .bothSupplied, [])
  else if private_key.isNone && private_key_ciphertext.isNone then
    (.error .neitherSupplied, [])
  else
    match env.storeOpen with
    | .error m => (.error (.storeOpenFailed m), [.storeOpenCall])
    | .ok store =>
      match env.vmFrom store with
      | .error m => (.error (.vmFromFailed m), [.storeOpenCall, .vmFromCall])
      | .ok vm =>
        (.ok ⟨vm, private_key, private_key_ciphertext, network_config, resolver⟩,
         [.storeOpenCall, .vmFromCall])

/-- `program_manager_with_local_resource_resolution` (lines 78-87). The
`impl TryInto<PathBuf>` argument is embedded as the outcome of the conversion:
`none` means the conversion failed, in which case the factory stops with the
distinct path error before any resolver or store/VM work. -/
def ProgramManager.program_manager_with_local_resource_resolution (env : Env)
    (private_key : Option PrivateKey) (private_key_ciphertext : Option Ciphertext)
    (local_directory : Option PathBuf) (network_config : Option NetworkConfig) :
    Except PMError (ProgramManager FileSystemResolver) × List Event :=
  match local_directory with
  | none => (.error .pathInvalid, [])
  | some dir =>
    match FileSystemResolver.new env dir with
    | .error m => (.error (.resolverNewFailed m), [.resolverNewCall dir])
    | .ok resolver =>
      let r := ProgramManager.new env private_key private_key_ciphertext
        network_config resolver
      (r.1, .resolverNewCall dir :: r.2)

/-- `program_manager_with_network_resolution` (lines 89-101): the config is
mandatory (not optional); the factory builds an `AleoNetworkResolver` from it
and threads `Some(network_config)` into `new`. -/
def ProgramManager.program_manager_with_network_resolution (env : Env)
    (private_key : Option PrivateKey) (private_key_ciphertext : Option Ciphertext)
    (network_config : NetworkConfig) :
    Except PMError (ProgramManager AleoNetworkResolver) × List Event :=
  ProgramManager.new env private_key private_key_ciphertext
    (some network_config) (AleoNetworkResolver.new network_config)

/-- `program_manager_with_hybrid_resolution` (lines 103-117): convert the path
(stopping with the distinct path error on failure), build a `HybridResolver`
from the config and the path, and thread `Some(network_config)` into `new`. -/
def ProgramManager.program_manager_with_hybrid_resolution (env : Env)
    (private_key : Option PrivateKey) (private_key_ciphertext : Option Ciphertext)
    (local_directory : Option PathBuf) (network_config : NetworkConfig) :
    Except PMError (ProgramManager HybridResolver) × List Event :=
  match local_directory with
  | none => (.error .pathInvalid, [])
  | some dir =>
    match HybridResolver.new env network_config dir with
    | .error m => (.error (.resolverNewFailed m), [.resolverNewCall dir])
    | .ok resolver =>
      let r := ProgramManager.new env private_key private_key_ciphertext
        (some network_config) resolver
      (r.1, .resolverNewCall dir :: r.2)

/-- `send_transaction` (lines 119-127): if a network config is stored, build an
API client from it and submit the transaction, propagating a broadcast failure
unchanged; otherwise fail with the distinct no-client error, touching nothing. -/
def ProgramManager.send_transaction {R : Type} (env : Env)
    (pm : ProgramManager R) (transaction : Transaction) :
    Except PMError Unit × List Event :=
  match pm.network_config with
  | some config =>
    match env.broadcast config transaction with
    | .ok _ =>
      (.ok (), [.apiClientFrom config, .transactionBroadcastCall transaction])
    | .error m =>
      (.error (.broadcastFailed m),
       [.apiClientFrom config, .transactionBroadcastCall transaction])
  | none => (.error .noApiClient, [])

/-- The Rust `send_transaction` takes `&self` (a shared borrow): the manager
state after the call is the state before it. This step function makes that
state passing explicit for the immutability claim. -/
def ProgramManager.send_transaction_step {R : Type} (env : Env)
    (pm : ProgramManager R) (transaction : Transaction) :
    ProgramManager R × (Except PMError Unit × List Event) :=
  (pm, ProgramManager.send_transaction env pm transaction)

/-- Modelled from the spec: `FileSystemResolver` resolution (not under `src/`)
reads the program file from the captured directory; an absent file is
`NotFound`, a corrupted file surfaces as an IO error. -/
def FileSystemResolver.resolve_program (env : Env) (r : FileSystemResolver)
    (p : ProgramId) : Except ResolverError Source × List Event :=
  match env.fs r.importsDirectory p with
  | .absent => (.error .notFound, [.localRead p])
  | .file s => (.ok s, [.localRead p])
  | .corrupted m => (.error (.ioError m), [.localRead p])

/-- Modelled from the spec: `AleoNetworkResolver` resolution (not under `src/`)
fetches the program through the network API client built from the captured
config. -/
def AleoNetworkResolver.resolve_program (env : Env) (r : AleoNetworkResolver)
    (p : ProgramId) : Except ResolverError Source × List Event :=
  (env.netFetch r.networkConfig p, [.networkFetch p])

/-- Modelled from the spec: `HybridResolver` resolution (not under `src/`)
attempts the filesystem sub-resolver first and falls back to the network
sub-resolver exactly when the local attempt fails with `NotFound`; any other
local error is surfaced without fallback. -/
def HybridResolver.resolve_program (env : Env) (r : HybridResolver)
    (p : ProgramId) : Except ResolverError Source × List Event :=
  let localRes := FileSystemResolver.resolve_program env r.fileSystemResolver p
  match localRes.1 with
  | .error .notFound =>
    let netRes := AleoNetworkResolver.resolve_program env r.networkResolver p
    (netRes.1, localRes.2 ++ netRes.2)
  | res => (res, localRes.2)

/-- A concrete environment in which every collaborator succeeds, used by the
witnesses. -/
def envOk : Env where
  storeOpen := .ok 0
  vmFrom := fun s => .ok s
  pathUsable := fun _ => true
  broadcast := fun _ _ => .ok ()
  fs := fun _ _ => .absent
  netFetch := fun _ _ => .error .notFound

/-- A concrete network config, used by the witnesses. -/
def cfg0 : NetworkConfig := ⟨"https://api.example", 3⟩

/-- Helper: inverting a successful `new`. A produced manager carries exactly
the supplied identity forms, config and resolver, and both the store open and
the VM instantiation succeeded. -/
theorem new_ok_inversion {R : Type} {env : Env} {pk : Option PrivateKey}
    {ct : Option Ciphertext} {nc : Option NetworkConfig} {r : R}
    {pm : ProgramManager R}
    (h : (ProgramManager.new env pk ct nc r).1 = .ok pm) :
    pm = ⟨pm.vm, pk, ct, nc, r⟩ ∧
    ∃ store, env.storeOpen = .ok store ∧ env.vmFrom store = .ok pm.vm := by
  unfold ProgramManager.new at h
  split at h
  · exact absurd h (by simp)
  split at h
  · exact absurd h (by simp)
  split at h
  next m heq => exact absurd h (by simp)
  next store heq =>
    split at h
    next m heq2 => exact absurd h (by simp)
    next vm heq2 =>
      simp only [Except.ok.injEq] at h
      subst h
      exact ⟨rfl, store, heq, by rw [heq2]⟩

/-- Claim C1: `ProgramManager::new` fails with the distinct "both supplied"
error when both identity forms are given, fails with the distinct "neither
supplied" error when neither is given, and succeeds when exactly one is given
and the store open and VM instantiation succeed. -/
theorem new_identity_exclusivity {R : Type} (env : Env)
    (nc : Option NetworkConfig) (r : R) :
    (∀ pk ct, (ProgramManager.new env (some pk) (some ct) nc r).1
        = .error .bothSupplied)
    ∧ (ProgramManager.new (R := R) env none none nc r).1
        = .error .neitherSupplied
    ∧ (∀ pk store vm, env.storeOpen = .ok store → env.vmFrom store = .ok vm →
        ∃ pm, (ProgramManager.new env (some pk) none nc r).1 = .ok pm)
    ∧ (∀ ct store vm, env.storeOpen = .ok store → env.vmFrom store = .ok vm →
        ∃ pm, (ProgramManager.new env none (some ct) nc r).1 = .ok pm) := by
  refine ⟨fun pk ct => rfl, rfl, ?_, ?_⟩
  · intro pk store vm hs hv
    exact ⟨⟨vm, some pk, none, nc, r⟩, by simp [ProgramManager.new, hs, hv]⟩
  · intro ct store vm hs hv
    exact ⟨⟨vm, none, some ct, nc, r⟩, by simp [ProgramManager.new, hs, hv]⟩

/-- Witness for C1: in the all-succeeding environment, construction with only
a private key succeeds. -/
theorem new_identity_exclusivity_witness :
    ∃ pm, (ProgramManager.new envOk (some 1) none none (0 : Nat)).1 = .ok pm :=
  (new_identity_exclusivity envOk none 0).2.2.1 1 0 0 rfl rfl

/-- Claim C2: on a manager whose stored network config is absent (as is any
manager built by the local-resolution factory with no config),
`send_transaction` fails with the distinct no-client error and its trace is
empty: no API client is constructed and no broadcast is attempted, whatever
the transaction. -/
theorem send_transaction_no_network_config (env : Env) :
    (∀ (R : Type) (pm : ProgramManager R) (tx : Transaction),
        pm.network_config = none →
        ProgramManager.send_transaction env pm tx = (.error .noApiClient, []))
    ∧ (∀ pk ct d pm,
        (ProgramManager.program_manager_with_local_resource_resolution env pk ct
          (some d) none).1 = .ok pm →
        pm.network_config = none) := by
  constructor
  · intro R pm tx h
    simp [ProgramManager.send_transaction, h]
  · intro pk ct d pm h
    unfold ProgramManager.program_manager_with_local_resource_resolution at h
    split at h
    next m heq => exact absurd h (by simp)
    next dir heq =>
      split at h
      next m heq2 => exact absurd h (by simp)
      next fsr heq2 =>
        simp only at h
        exact ((new_ok_inversion h).1 ▸ rfl)

/-- Witness for C2: a concrete no-config manager rejects a concrete
transaction with the no-client error and an empty trace, and the concrete
manager built by the local factory without a config indeed stores no config. -/
theorem send_transaction_no_network_config_witness :
    ProgramManager.send_transaction envOk
      (⟨0, some 1, none, none, (⟨"d"⟩ : FileSystemResolver)⟩ :
        ProgramManager FileSystemResolver) 7 = (.error .noApiClient, [])
    ∧ (⟨0, some 1, none, none, (⟨"d"⟩ : FileSystemResolver)⟩ :
        ProgramManager FileSystemResolver).network_config = none :=
  ⟨(send_transaction_no_network_config envOk).1 FileSystemResolver
      ⟨0, some 1, none, none, ⟨"d"⟩⟩ 7 rfl,
   (send_transaction_no_network_config envOk).2 (some 1) none "d"
      ⟨0, some 1, none, none, ⟨"d"⟩⟩ rfl⟩

/-- Claim C5: the local and hybrid factories, given a path-like input whose
conversion to a path fails, fail with the distinct path error and an empty
trace: no resolver is constructed and no store or VM is allocated. -/
theorem factories_path_conversion_failure (env : Env) (pk : Option PrivateKey)
    (ct : Option Ciphertext) (nc : Option NetworkConfig) (c : NetworkConfig) :
    ProgramManager.program_manager_with_local_resource_resolution env pk ct
        none nc = (.error .pathInvalid, [])
    ∧ ProgramManager.program_manager_with_hybrid_resolution env pk ct
        none c = (.error .pathInvalid, []) :=
  ⟨rfl, rfl⟩

/-- Claim C9: when `new` fails with the "both supplied" or the "neither
supplied" configuration error, its trace is empty: the consensus store open is
never invoked, so no store or VM is ever allocated on these paths. -/
theorem new_identity_error_no_store {R : Type} (env : Env) (pk : PrivateKey)
    (ct : Ciphertext) (nc : Option NetworkConfig) (r : R) :
    ProgramManager.new env (some pk) (some ct) nc r = (.error .bothSupplied, [])
    ∧ ProgramManager.new (R := R) env none none nc r
        = (.error .neitherSupplied, []) :=
  ⟨rfl, rfl⟩

/-- A concrete environment whose filesystem holds a program file at every
name, used by the witnesses. -/
def envFs : Env := { envOk with fs := fun _ _ => .file "program hello" }

/-- A concrete environment whose network client rejects every broadcast, used
by the witnesses. -/
def envReject : Env := { envOk with broadcast := fun _ _ => .error "rejected" }

/-- A concrete environment whose consensus store fails to open, used by the
witnesses. -/
def envStoreFail : Env := { envOk with storeOpen := .error "store boom" }

/-- A concrete environment whose VM instantiation fails, used by the
witnesses. -/
def envVmFail : Env := { envOk with vmFrom := fun _ => .error "vm boom" }

/-- Claim C3 (the resolvers module is not under `src/`; resolution is modelled
from the spec): `HybridResolver` resolution attempts the filesystem first (the
trace begins with the local read); if the program exists locally, it is
returned with no network fetch; the network fallback happens exactly when the
local attempt fails with `NotFound` (the remaining case); a corrupted local
file surfaces its error without fallback. -/
theorem hybrid_resolution_policy (env : Env) (r : HybridResolver)
    (p : ProgramId) :
    (∃ rest, (HybridResolver.resolve_program env r p).2 = .localRead p :: rest)
    ∧ (∀ s, env.fs r.fileSystemResolver.importsDirectory p = .file s →
        HybridResolver.resolve_program env r p = (.ok s, [.localRead p]))
    ∧ (env.fs r.fileSystemResolver.importsDirectory p = .absent →
        HybridResolver.resolve_program env r p =
          (env.netFetch r.networkResolver.networkConfig p,
           [.localRead p, .networkFetch p]))
    ∧ (∀ m, env.fs r.fileSystemResolver.importsDirectory p = .corrupted m →
        HybridResolver.resolve_program env r p =
          (.error (.ioError m), [.localRead p])) := by
  refine ⟨?_, ?_, ?_, ?_⟩
  · cases hd : env.fs r.fileSystemResolver.importsDirectory p with
    | absent =>
      exact ⟨[.networkFetch p], by
        simp [HybridResolver.resolve_program, FileSystemResolver.resolve_program,
          AleoNetworkResolver.resolve_program, hd]⟩
    | file s =>
      exact ⟨[], by
        simp [HybridResolver.resolve_program, FileSystemResolver.resolve_program,
          hd]⟩
    | corrupted m =>
      exact ⟨[], by
        simp [HybridResolver.resolve_program, FileSystemResolver.resolve_program,
          hd]⟩
  · intro s hd
    simp [HybridResolver.resolve_program, FileSystemResolver.resolve_program, hd]
  · intro hd
    simp [HybridResolver.resolve_program, FileSystemResolver.resolve_program,
      AleoNetworkResolver.resolve_program, hd]
  · intro m hd
    simp [HybridResolver.resolve_program, FileSystemResolver.resolve_program, hd]

/-- Witness for C3: with a local file present the hybrid resolver returns its
contents with no network fetch; with the file absent it performs the one
network fetch, whose NotFound outcome is surfaced. -/
theorem hybrid_resolution_policy_witness :
    HybridResolver.resolve_program envFs ⟨⟨"d"⟩, ⟨cfg0⟩⟩ "hello.aleo"
      = (.ok "program hello", [.localRead "hello.aleo"])
    ∧ HybridResolver.resolve_program envOk ⟨⟨"d"⟩, ⟨cfg0⟩⟩ "hello.aleo"
      = (.error .notFound,
         [.localRead "hello.aleo", .networkFetch "hello.aleo"]) :=
  ⟨(hybrid_resolution_policy envFs ⟨⟨"d"⟩, ⟨cfg0⟩⟩ "hello.aleo").2.1
      "program hello" rfl,
   (hybrid_resolution_policy envOk ⟨⟨"d"⟩, ⟨cfg0⟩⟩ "hello.aleo").2.2.1 rfl⟩

/-- Claim C4: on a manager with a stored network config, `send_transaction`
constructs the API client from that config and submits the transaction (both
recorded in the trace), returns success exactly when the broadcast of the
client succeeds, and on failure propagates the client message unchanged. -/
theorem send_transaction_with_config {R : Type} (env : Env)
    (pm : ProgramManager R) (tx : Transaction) (c : NetworkConfig)
    (h : pm.network_config = some c) :
    (env.broadcast c tx = .ok () →
      ProgramManager.send_transaction env pm tx =
        (.ok (), [.apiClientFrom c, .transactionBroadcastCall tx]))
    ∧ (∀ m, env.broadcast c tx = .error m →
      ProgramManager.send_transaction env pm tx =
        (.error (.broadcastFailed m),
         [.apiClientFrom c, .transactionBroadcastCall tx])) := by
  constructor
  · intro hb
    simp [ProgramManager.send_transaction, h, hb]
  · intro m hb
    simp [ProgramManager.send_transaction, h, hb]

/-- Witness for C4: a concrete configured manager succeeds under the accepting
client and fails with the client message kept unchanged under the rejecting
client. -/
theorem send_transaction_with_config_witness :
    ProgramManager.send_transaction envOk
      (⟨0, some 1, none, some cfg0, (⟨"d"⟩ : FileSystemResolver)⟩ :
        ProgramManager FileSystemResolver) 7
      = (.ok (), [.apiClientFrom cfg0, .transactionBroadcastCall 7])
    ∧ ProgramManager.send_transaction envReject
      (⟨0, some 1, none, some cfg0, (⟨"d"⟩ : FileSystemResolver)⟩ :
        ProgramManager FileSystemResolver) 7
      = (.error (.broadcastFailed "rejected"),
         [.apiClientFrom cfg0, .transactionBroadcastCall 7]) :=
  ⟨(send_transaction_with_config envOk
      (⟨0, some 1, none, some cfg0, ⟨"d"⟩⟩ : ProgramManager FileSystemResolver)
      7 cfg0 rfl).1 rfl,
   (send_transaction_with_config envReject
      (⟨0, some 1, none, some cfg0, ⟨"d"⟩⟩ : ProgramManager FileSystemResolver)
      7 cfg0 rfl).2 "rejected" rfl⟩

/-- Claim C6: the network factory, whose config argument is mandatory at the
type level (`NetworkConfig`, not `Option NetworkConfig`), stores that same
config and the resolver built from it in any manager it produces; the hybrid
factory likewise stores the same config and a resolver built from its path and
config. Hence every manager these two factories produce has a config
present. -/
theorem network_and_hybrid_factories_store_config (env : Env)
    (pk : Option PrivateKey) (ct : Option Ciphertext) (nc : NetworkConfig)
    (d : PathBuf) :
    (∀ pm, (ProgramManager.program_manager_with_network_resolution
        env pk ct nc).1 = .ok pm →
      pm.network_config = some nc ∧ pm.resolver = AleoNetworkResolver.new nc)
    ∧ (∀ pm, (ProgramManager.program_manager_with_hybrid_resolution
        env pk ct (some d) nc).1 = .ok pm →
      pm.network_config = some nc
        ∧ HybridResolver.new env nc d = .ok pm.resolver) := by
  constructor
  · intro pm h
    unfold ProgramManager.program_manager_with_network_resolution at h
    have hinv := (new_ok_inversion h).1
    exact ⟨congrArg ProgramManager.network_config hinv,
           congrArg ProgramManager.resolver hinv⟩
  · intro pm h
    unfold ProgramManager.program_manager_with_hybrid_resolution at h
    split at h
    next m heq => exact absurd h (by simp)
    next dir heq =>
      split at h
      next m heq2 => exact absurd h (by simp)
      next res heq2 =>
        simp only at h
        have hinv := (new_ok_inversion h).1
        injection heq with hdd
        subst hdd
        refine ⟨congrArg ProgramManager.network_config hinv, ?_⟩
        rw [congrArg ProgramManager.resolver hinv]
        exact heq2

/-- Witness for C6: concrete managers produced by the two factories carry the
supplied config and the resolvers built from it. -/
theorem network_and_hybrid_factories_store_config_witness :
    ((⟨0, some 1, none, some cfg0, AleoNetworkResolver.new cfg0⟩ :
        ProgramManager AleoNetworkResolver).network_config = some cfg0
      ∧ (⟨0, some 1, none, some cfg0, AleoNetworkResolver.new cfg0⟩ :
        ProgramManager AleoNetworkResolver).resolver
          = AleoNetworkResolver.new cfg0)
    ∧ ((⟨0, some 1, none, some cfg0, (⟨⟨"d"⟩, ⟨cfg0⟩⟩ : HybridResolver)⟩ :
        ProgramManager HybridResolver).network_config = some cfg0
      ∧ HybridResolver.new envOk cfg0 "d"
          = .ok (⟨0, some 1, none, some cfg0, (⟨⟨"d"⟩, ⟨cfg0⟩⟩ :
              HybridResolver)⟩ : ProgramManager HybridResolver).resolver) :=
  ⟨(network_and_hybrid_factories_store_config envOk (some 1) none cfg0 "d").1
      ⟨0, some 1, none, some cfg0, AleoNetworkResolver.new cfg0⟩ rfl,
   (network_and_hybrid_factories_store_config envOk (some 1) none cfg0 "d").2
      ⟨0, some 1, none, some cfg0, ⟨⟨"d"⟩, ⟨cfg0⟩⟩⟩ rfl⟩

/-- Claim C7: construction is atomic with respect to the store and VM. Given
exactly one identity form, a store-open failure makes `new` fail with that
failure, a VM-instantiation failure makes `new` fail with that failure, and
conversely a produced manager certifies that both the store open and the VM
instantiation succeeded — the result being an error otherwise, no partial
manager value can exist. -/
theorem new_atomic_store_vm {R : Type} (env : Env) (pk : Option PrivateKey)
    (ct : Option Ciphertext) (nc : Option NetworkConfig) (r : R)
    (hx : pk.isSome ≠ ct.isSome) :
    (∀ m, env.storeOpen = .error m →
      (ProgramManager.new env pk ct nc r).1 = .error (.storeOpenFailed m))
    ∧ (∀ store m, env.storeOpen = .ok store → env.vmFrom store = .error m →
      (ProgramManager.new env pk ct nc r).1 = .error (.vmFromFailed m))
    ∧ (∀ pm, (ProgramManager.new env pk ct nc r).1 = .ok pm →
      ∃ store, env.storeOpen = .ok store ∧ env.vmFrom store = .ok pm.vm) := by
  have h1 : (pk.isSome && ct.isSome) = false := by
    cases pk <;> cases ct <;> simp_all
  have h2 : (pk.isNone && ct.isNone) = false := by
    cases pk <;> cases ct <;> simp_all
  refine ⟨?_, ?_, ?_⟩
  · intro m hm
    simp [ProgramManager.new, h1, h2, hm]
  · intro store m hs hm
    simp [ProgramManager.new, h1, h2, hs, hm]
  · intro pm h
    exact (new_ok_inversion h).2

/-- Witness for C7: with only a private key supplied, the concrete failing
environments make `new` fail with the corresponding collaborator error. -/
theorem new_atomic_store_vm_witness :
    (ProgramManager.new envStoreFail (some 1) none none (0 : Nat)).1
      = .error (.storeOpenFailed "store boom")
    ∧ (ProgramManager.new envVmFail (some 1) none none (0 : Nat)).1
      = .error (.vmFromFailed "vm boom") :=
  ⟨(new_atomic_store_vm envStoreFail (some 1) none none 0 (by decide)).1
      "store boom" rfl,
   (new_atomic_store_vm envVmFail (some 1) none none 0 (by decide)).2.1
      0 "vm boom" rfl rfl⟩

/-- Claim C8: identity material and config are read-only after construction.
A successful construction stores exactly the supplied values, and
`send_transaction` takes the manager by shared reference (modelled by the
state-passing step `send_transaction_step`), so the manager after the call —
under any environment — is the manager before it, fields included. -/
theorem identity_and_config_immutable {R : Type} (env envLater : Env)
    (pk : Option PrivateKey) (ct : Option Ciphertext)
    (nc : Option NetworkConfig) (r : R) (pm : ProgramManager R)
    (tx : Transaction)
    (h : (ProgramManager.new env pk ct nc r).1 = .ok pm) :
    pm.private_key = pk ∧ pm.private_key_ciphertext = ct
    ∧ pm.network_config = nc
    ∧ (ProgramManager.send_transaction_step envLater pm tx).1 = pm := by
  have hinv := (new_ok_inversion h).1
  exact ⟨congrArg ProgramManager.private_key hinv,
         congrArg ProgramManager.private_key_ciphertext hinv,
         congrArg ProgramManager.network_config hinv, rfl⟩

/-- Witness for C8: the concrete manager built from a key and a config keeps
those exact values, and the broadcast step leaves it unchanged. -/
theorem identity_and_config_immutable_witness :
    (⟨0, some 1, none, some cfg0, (0 : Nat)⟩ :
        ProgramManager Nat).private_key = some 1
    ∧ (⟨0, some 1, none, some cfg0, (0 : Nat)⟩ :
        ProgramManager Nat).private_key_ciphertext = none
    ∧ (⟨0, some 1, none, some cfg0, (0 : Nat)⟩ :
        ProgramManager Nat).network_config = some cfg0
    ∧ (ProgramManager.send_transaction_step envOk
        (⟨0, some 1, none, some cfg0, (0 : Nat)⟩ : ProgramManager Nat) 7).1
      = ⟨0, some 1, none, some cfg0, (0 : Nat)⟩ :=
  identity_and_config_immutable envOk envOk (some 1) none (some cfg0) 0
    ⟨0, some 1, none, some cfg0, 0⟩ 7 rfl

/-- Claim C10: the local factory accepts an optional config;
`send_transaction` depends only on the stored config, not on the resolver
variant (two managers agreeing on the config get identical results); a
manager built by the local factory with a config supplied never fails with
the no-client error; and a successful `new` stores exactly the supplied
identity, config and resolver. -/
theorem local_factory_optional_config (env : Env) :
    (∀ (A B : Type) (pm₁ : ProgramManager A) (pm₂ : ProgramManager B)
        (tx : Transaction), pm₁.network_config = pm₂.network_config →
      ProgramManager.send_transaction env pm₁ tx
        = ProgramManager.send_transaction env pm₂ tx)
    ∧ (∀ pk ct d c pm tx,
        (ProgramManager.program_manager_with_local_resource_resolution env pk ct
          (some d) (some c)).1 = .ok pm →
        (ProgramManager.send_transaction env pm tx).1 ≠ .error .noApiClient)
    ∧ (∀ (R : Type) (pk : Option PrivateKey) (ct : Option Ciphertext)
        (nc : Option NetworkConfig) (r : R) (pm : ProgramManager R),
        (ProgramManager.new env pk ct nc r).1 = .ok pm →
        pm.private_key = pk ∧ pm.private_key_ciphertext = ct
          ∧ pm.network_config = nc ∧ pm.resolver = r) := by
  refine ⟨?_, ?_, ?_⟩
  · intro A B pm₁ pm₂ tx h
    simp only [ProgramManager.send_transaction, h]
  · intro pk ct d c pm tx h
    unfold ProgramManager.program_manager_with_local_resource_resolution at h
    split at h
    next m heq => exact absurd h (by simp)
    next dir heq =>
      split at h
      next m heq2 => exact absurd h (by simp)
      next fsr heq2 =>
        simp only at h
        have hc : pm.network_config = some c :=
          congrArg ProgramManager.network_config (new_ok_inversion h).1
        cases hb : env.broadcast c tx <;>
          simp [ProgramManager.send_transaction, hc, hb]
  · intro R pk ct nc r pm h
    have hinv := (new_ok_inversion h).1
    exact ⟨congrArg ProgramManager.private_key hinv,
           congrArg ProgramManager.private_key_ciphertext hinv,
           congrArg ProgramManager.network_config hinv,
           congrArg ProgramManager.resolver hinv⟩

/-- Witness for C10: two concrete managers with the same (absent) config but
different resolver types behave identically; the concrete locally-resolved,
configured manager does not fail with the no-client error; and a concrete
successful construction stores exactly what was supplied. -/
theorem local_factory_optional_config_witness :
    ProgramManager.send_transaction envOk
        (⟨0, some 1, none, none, (0 : Nat)⟩ : ProgramManager Nat) 3
      = ProgramManager.send_transaction envOk
        (⟨5, none, some 2, none, (⟨"x"⟩ : FileSystemResolver)⟩ :
          ProgramManager FileSystemResolver) 3
    ∧ (ProgramManager.send_transaction envOk
        (⟨0, some 1, none, some cfg0, (⟨"d"⟩ : FileSystemResolver)⟩ :
          ProgramManager FileSystemResolver) 7).1 ≠ .error .noApiClient
    ∧ ((⟨0, some 1, none, some cfg0, (0 : Nat)⟩ :
          ProgramManager Nat).private_key = some 1
        ∧ (⟨0, some 1, none, some cfg0, (0 : Nat)⟩ :
          ProgramManager Nat).private_key_ciphertext = none
        ∧ (⟨0, some 1, none, some cfg0, (0 : Nat)⟩ :
          ProgramManager Nat).network_config = some cfg0
        ∧ (⟨0, some 1, none, some cfg0, (0 : Nat)⟩ :
          ProgramManager Nat).resolver = 0) :=
  ⟨(local_factory_optional_config envOk).1 Nat FileSystemResolver
      ⟨0, some 1, none, none, 0⟩ ⟨5, none, some 2, none, ⟨"x"⟩⟩ 3 rfl,
   (local_factory_optional_config envOk).2.1 (some 1) none "d" cfg0
      ⟨0, some 1, none, some cfg0, ⟨"d"⟩⟩ 7 rfl,
   (local_factory_optional_config envOk).2.2 Nat (some 1) none (some cfg0) 0
      ⟨0, some 1, none, some cfg0, 0⟩ rfl⟩

end Aleo
